import Mathlib

/-!
Shallow embedding of micro-bench.h (https://github.com/San7o/micro-bench.h),
a header-only C99 micro-benchmarking library.

The repository contains two variants of the header:
  - a single-clock variant (fields `min, max, sum, mean, M2, variance,
    iterations`; one `clock_t start_time`), and
  - a dual-clock variant tracking CPU time and wall-clock ("real") time in
    parallel (fields suffixed `_cpu` / `_real`; a `clock_t start_time_cpu`
    and a `struct timespec start_time_real`).

Modelling conventions:
  - C `double` values are modelled as exact rationals (`ℚ`): the statistical
    claims are stated over exact arithmetic.
  - Clock readings (`clock()` results, `struct timespec`) are inputs of the
    embedded `start`/`stop` functions, since the C code obtains them from the
    environment.  `clock_t` readings are rationals; a `timespec` is a pair
    `(tv_sec, tv_nsec) : Int × Int`.
  - A possibly-null `MicroBench *` pointer is `Option MicroBench`.  A C
    function that may dereference a null pointer is embedded with result type
    `Option α`; the result `none` marks the null dereference (crash), and a
    `if (!mb) return;` guard in the source becomes the `none ↦ some …` branch.
  - The reporters print comma/row structured text with `printf`; each
    `printf` line is embedded as a list of fields (`CsvField`), keeping the
    exact order and count of the conversion specifications and arguments.
-/

/-- POSIX (XSI) value of the `CLOCKS_PER_SEC` constant used by both variants
to convert `clock_t` tick differences to seconds. -/
def CLOCKS_PER_SEC : ℚ := 1000000

/-- Data recorded by the single-clock variant (`MicroBenchData`): updated each
time the start and stop functions are called.  `M2` is the running sum of
squared deviations from the mean used by Welford's online algorithm. -/
structure MicroBenchData where
  min : ℚ
  max : ℚ
  sum : ℚ
  mean : ℚ
  M2 : ℚ
  variance : ℚ
  iterations : ℕ
deriving DecidableEq

/-- The zero-initialised `(MicroBenchData){0}` state. -/
def dataZero : MicroBenchData := ⟨0, 0, 0, 0, 0, 0, 0⟩

/-- Accumulator update performed by the single-clock `micro_bench_stop` once
the elapsed time `diff` has been computed: sentinel-zero min update, max
update, sum and iteration count, then Welford's online mean/variance step
using the incremented iteration count. -/
def stopData (d : MicroBenchData) (diff : ℚ) : MicroBenchData :=
  let min1 := if diff < d.min ∨ d.min = 0 then diff else d.min
  let max1 := if diff > d.max then diff else d.max
  let sum1 := d.sum + diff
  let n1 : ℕ := d.iterations + 1
  let delta := diff - d.mean
  let mean1 := d.mean + delta / (n1 : ℚ)
  let delta2 := diff - mean1
  let m21 := d.M2 + delta * delta2
  let variance1 := m21 / (n1 : ℚ)
  ⟨min1, max1, sum1, mean1, m21, variance1, n1⟩

/-- The single-clock `MicroBench` struct: recorded data plus the pending
`clock_t start_time` slot. -/
structure MicroBench where
  data : MicroBenchData
  start_time : ℚ
deriving DecidableEq

/-- The zero-initialised benchmark `MicroBench mb = {0}`. -/
def microBenchZero : MicroBench := ⟨dataZero, 0⟩

/-- Body of the single-clock `micro_bench_start` on a non-null benchmark:
`mb->start_time = clock();` with the clock reading passed as `now`. -/
def startB (b : MicroBench) (now : ℚ) : MicroBench := ⟨b.data, now⟩

/-- Body of the single-clock `micro_bench_stop` on a non-null benchmark:
reads the clock (`stop_time`), computes
`diff = (stop_time - start_time) / CLOCKS_PER_SEC`, and folds `diff` into the
accumulator.  The `start_time` slot is left untouched. -/
def stopB (b : MicroBench) (stop_time : ℚ) : MicroBench :=
  ⟨stopData b.data ((stop_time - b.start_time) / CLOCKS_PER_SEC), b.start_time⟩

/-- Body of the single-clock `micro_bench_clear` on a non-null benchmark:
`mb->data = (MicroBenchData){0}; mb->start_time = (clock_t){0};`. -/
def clearB (_b : MicroBench) : MicroBench := ⟨dataZero, 0⟩

/-- Null-pointer-aware `micro_bench_start`: guarded by `if (!mb) return;`. -/
def micro_bench_start (mb : Option MicroBench) (now : ℚ) :
    Option (Option MicroBench) :=
  match mb with
  | none => some none
  | some b => some (some (startB b now))

/-- Null-pointer-aware `micro_bench_stop`: guarded by `if (!mb) return;`. -/
def micro_bench_stop (mb : Option MicroBench) (stop_time : ℚ) :
    Option (Option MicroBench) :=
  match mb with
  | none => some none
  | some b => some (some (stopB b stop_time))

/-- Null-pointer-aware `micro_bench_clear`: guarded by `if (!mb) return;`. -/
def micro_bench_clear (mb : Option MicroBench) : Option (Option MicroBench) :=
  match mb with
  | none => some none
  | some b => some (some (clearB b))

/-- The single-clock `micro_bench_get_min`: `return mb->data.min;` with no
null check, so a null argument is a dereference (result `none`). -/
def micro_bench_get_min (mb : Option MicroBench) : Option ℚ :=
  match mb with
  | none => none
  | some b => some b.data.min

/-- The single-clock `micro_bench_get_max`: `return mb->data.max;`, no null
check. -/
def micro_bench_get_max (mb : Option MicroBench) : Option ℚ :=
  match mb with
  | none => none
  | some b => some b.data.max

/-- The single-clock `micro_bench_get_mean`: `return mb->data.mean;`, no null
check. -/
def micro_bench_get_mean (mb : Option MicroBench) : Option ℚ :=
  match mb with
  | none => none
  | some b => some b.data.mean

/-- The single-clock `micro_bench_get_sum`.  The source body is
`return mb->data.max;` — it reads the `max` field, not `sum`.  No null
check. -/
def micro_bench_get_sum (mb : Option MicroBench) : Option ℚ :=
  match mb with
  | none => none
  | some b => some b.data.max

/-- The single-clock `micro_bench_get_variance`: `return mb->data.variance;`,
no null check. -/
def micro_bench_get_variance (mb : Option MicroBench) : Option ℚ :=
  match mb with
  | none => none
  | some b => some b.data.variance

/-- One field of a printed report line: a literal column label from the format
string, a `%f`-printed double value, or the `%ld`-printed iteration count. -/
inductive CsvField where
  | name (s : String)
  | val (q : ℚ)
  | count (n : ℕ)
deriving DecidableEq

/-- Single-clock `micro_bench_default_reporter_stdout`: the boxed table.  Each
data-carrying `printf` row becomes one line of label/value fields (the box
border characters are presentation only and are not modelled). -/
def micro_bench_default_reporter_stdout (d : MicroBenchData) :
    List (List CsvField) :=
  [[CsvField.name "min", CsvField.val d.min],
   [CsvField.name "max", CsvField.val d.max],
   [CsvField.name "sum", CsvField.val d.sum],
   [CsvField.name "mean", CsvField.val d.mean],
   [CsvField.name "var", CsvField.val d.variance],
   [CsvField.name "it", CsvField.count d.iterations]]

/-- Single-clock `micro_bench_default_reporter_csv`: a single `printf`
`"%f,%f,%f,%f,%f,%ld\n"` of min, max, sum, mean, variance, iterations.
The source emits no header line. -/
def micro_bench_default_reporter_csv (d : MicroBenchData) :
    List (List CsvField) :=
  [[CsvField.val d.min, CsvField.val d.max, CsvField.val d.sum,
    CsvField.val d.mean, CsvField.val d.variance,
    CsvField.count d.iterations]]

/-- The single-clock `micro_bench_report_with`: `reporter(&mb->data);` with no
null check on `mb`, so a null argument dereferences (result `none`). -/
def micro_bench_report_with (mb : Option MicroBench)
    (reporter : MicroBenchData → List (List CsvField)) :
    Option (List (List CsvField)) :=
  match mb with
  | none => none
  | some b => some (reporter b.data)

/-- The single-clock `micro_bench_report`: dispatches to `report_with` with
the default stdout reporter. -/
def micro_bench_report (mb : Option MicroBench) :
    Option (List (List CsvField)) :=
  micro_bench_report_with mb micro_bench_default_reporter_stdout

/-- Data recorded by the dual-clock variant: independent accumulators for CPU
time and wall-clock ("real") time, sharing one iteration counter. -/
structure MicroBenchData2 where
  min_cpu : ℚ
  min_real : ℚ
  max_cpu : ℚ
  max_real : ℚ
  sum_cpu : ℚ
  sum_real : ℚ
  mean_cpu : ℚ
  mean_real : ℚ
  M2_cpu : ℚ
  M2_real : ℚ
  variance_cpu : ℚ
  variance_real : ℚ
  iterations : ℕ
deriving DecidableEq

/-- The zero-initialised dual-clock `(MicroBenchData){0}` state. -/
def dataZero2 : MicroBenchData2 := ⟨0, 0, 0, 0, 0, 0, 0, 0, 0, 0, 0, 0, 0⟩

/-- Accumulator update performed by the dual-clock `micro_bench_stop` once the
elapsed times `diff_cpu` and `diff_real` have been computed: sentinel-zero min
updates, max updates, sums, one shared iteration increment, then Welford's
step for each clock using the incremented count. -/
def stopData2 (d : MicroBenchData2) (diff_cpu diff_real : ℚ) :
    MicroBenchData2 :=
  let minc := if diff_cpu < d.min_cpu ∨ d.min_cpu = 0 then diff_cpu else d.min_cpu
  let minr := if diff_real < d.min_real ∨ d.min_real = 0 then diff_real else d.min_real
  let maxc := if diff_cpu > d.max_cpu then diff_cpu else d.max_cpu
  let maxr := if diff_real > d.max_real then diff_real else d.max_real
  let sumc := d.sum_cpu + diff_cpu
  let sumr := d.sum_real + diff_real
  let n1 : ℕ := d.iterations + 1
  let deltac := diff_cpu - d.mean_cpu
  let meanc := d.mean_cpu + deltac / (n1 : ℚ)
  let delta2c := diff_cpu - meanc
  let m2c := d.M2_cpu + deltac * delta2c
  let varc := m2c / (n1 : ℚ)
  let deltar := diff_real - d.mean_real
  let meanr := d.mean_real + deltar / (n1 : ℚ)
  let delta2r := diff_real - meanr
  let m2r := d.M2_real + deltar * delta2r
  let varr := m2r / (n1 : ℚ)
  ⟨minc, minr, maxc, maxr, sumc, sumr, meanc, meanr, m2c, m2r, varc, varr, n1⟩

/-- The dual-clock `MicroBench` struct: recorded data plus the pending
`clock_t start_time_cpu` and `struct timespec start_time_real` slots. -/
structure MicroBench2 where
  data : MicroBenchData2
  start_time_cpu : ℚ
  start_time_real : Int × Int
deriving DecidableEq

/-- Body of the dual-clock `micro_bench_start` on a non-null benchmark:
records the current `clock()` and `clock_gettime(CLOCK_MONOTONIC)` readings
into the pending-start slots. -/
def startB2 (b : MicroBench2) (now_cpu : ℚ) (now_real : Int × Int) :
    MicroBench2 := ⟨b.data, now_cpu, now_real⟩

/-- Body of the dual-clock `micro_bench_stop` on a non-null benchmark:
`diff_cpu = (stop_cpu - start_time_cpu) / CLOCKS_PER_SEC` and
`diff_real = (tv_sec - tv_sec0) + (tv_nsec - tv_nsec0) / 1e9`, then the
accumulator update.  The start-time slots are left untouched. -/
def stopB2 (b : MicroBench2) (stop_cpu : ℚ) (stop_real : Int × Int) :
    MicroBench2 :=
  let diff_cpu := (stop_cpu - b.start_time_cpu) / CLOCKS_PER_SEC
  let diff_real := ((stop_real.1 - b.start_time_real.1 : Int) : ℚ) +
    ((stop_real.2 - b.start_time_real.2 : Int) : ℚ) / 1000000000
  ⟨stopData2 b.data diff_cpu diff_real, b.start_time_cpu, b.start_time_real⟩

/-- The dual-clock `micro_bench_get_sum_real`.  The source body is
`return mb->data.max_real;` — it reads the `max_real` field, not `sum_real`.
No null check. -/
def micro_bench_get_sum_real (mb : Option MicroBench2) : Option ℚ :=
  match mb with
  | none => none
  | some b => some b.data.max_real

/-- The dual-clock `micro_bench_get_sum_cpu`.  The source body is
`return mb->data.max_cpu;` — it reads the `max_cpu` field, not `sum_cpu`.
No null check. -/
def micro_bench_get_sum_cpu (mb : Option MicroBench2) : Option ℚ :=
  match mb with
  | none => none
  | some b => some b.data.max_cpu

/-- Dual-clock `micro_bench_default_reporter_csv`: first `printf` prints the
header naming 9 fields (no `max_real`/`max_cpu` entries), the second prints
`"%f,%f,%f,%f,%f,%f,%f,%f,%f,%f,%ld\n"` with 11 arguments, max included. -/
def micro_bench_default_reporter_csv2 (d : MicroBenchData2) :
    List (List CsvField) :=
  [[CsvField.name "min_real", CsvField.name "min_cpu",
    CsvField.name "sum_real", CsvField.name "sum_cpu",
    CsvField.name "mean_real", CsvField.name "mean_cpu",
    CsvField.name "variance_real", CsvField.name "variance_cpu",
    CsvField.name "iterations"],
   [CsvField.val d.min_real, CsvField.val d.min_cpu,
    CsvField.val d.max_real, CsvField.val d.max_cpu,
    CsvField.val d.sum_real, CsvField.val d.sum_cpu,
    CsvField.val d.mean_real, CsvField.val d.mean_cpu,
    CsvField.val d.variance_real, CsvField.val d.variance_cpu,
    CsvField.count d.iterations]]

/-- Feeding a list of synthetic elapsed samples directly into the single-clock
accumulator, starting from the cleared state: one `stopData` update per
sample, in order. -/
def runStats (l : List ℚ) : MicroBenchData := l.foldl stopData dataZero

/-- Sum of squares of a list of rationals. -/
def sqSum (l : List ℚ) : ℚ := (l.map fun x => x ^ 2).sum

lemma runStats_append (l : List ℚ) (x : ℚ) :
    runStats (l ++ [x]) = stopData (runStats l) x := by
  simp [runStats, List.foldl_append]

lemma sqSum_append (l : List ℚ) (x : ℚ) :
    sqSum (l ++ [x]) = sqSum l + x ^ 2 := by
  simp [sqSum]

/-- Joint invariant of the single-clock accumulator over exact arithmetic:
after folding any list of samples from the cleared state, `iterations` is the
sample count, `sum` the exact running total, `mean` the arithmetic mean, `M2`
the textbook sum of squared deviations in closed form, and `variance` equals
`M2 / iterations`. -/
lemma runStats_invariant (l : List ℚ) :
    (runStats l).iterations = l.length ∧
    (runStats l).sum = l.sum ∧
    (runStats l).mean = (if l.length = 0 then 0 else l.sum / (l.length : ℚ)) ∧
    (runStats l).M2 =
      (if l.length = 0 then 0 else sqSum l - l.sum ^ 2 / (l.length : ℚ)) ∧
    (runStats l).variance =
      (if l.length = 0 then 0
       else (sqSum l - l.sum ^ 2 / (l.length : ℚ)) / (l.length : ℚ)) := by
  induction l using List.reverseRecOn with
  | nil => simp [runStats, dataZero]
  | append_singleton l x ih =>
    obtain ⟨h1, h2, h3, h4, h5⟩ := ih
    rw [runStats_append]
    by_cases hn : l.length = 0
    · have hl : l = [] := List.length_eq_zero.mp hn
      subst hl
      simp [runStats, stopData, dataZero, sqSum]
    · have hq : (l.length : ℚ) ≠ 0 := Nat.cast_ne_zero.mpr hn
      have hq1 : (l.length : ℚ) + 1 ≠ 0 := by positivity
      rw [if_neg hn] at h3 h4 h5
      have hlen : (l ++ [x]).length = l.length + 1 := by simp
      have hmean : (stopData (runStats l) x).mean =
          (l.sum + x) / ((l.length : ℚ) + 1) := by
        simp only [stopData, h1, h3]
        push_cast
        field_simp
        ring
      refine ⟨?_, ?_, ?_, ?_, ?_⟩
      · simp [stopData, h1]
      · simp [stopData, h2]
      · rw [hmean, hlen, if_neg (Nat.succ_ne_zero _)]
        push_cast
        simp [List.sum_append]
      · simp only [stopData, h1, h3, h4, hlen,
          if_neg (Nat.succ_ne_zero _), sqSum_append, List.sum_append]
        push_cast
        field_simp
        ring
      · simp only [stopData, h1, h3, h4, hlen,
          if_neg (Nat.succ_ne_zero _), sqSum_append, List.sum_append]
        push_cast
        field_simp
        ring

/-- Expansion of a sum of squared deviations from any constant `m`. -/
lemma map_sub_sq_sum (l : List ℚ) (m : ℚ) :
    (l.map fun x => (x - m) ^ 2).sum =
      sqSum l - 2 * m * l.sum + (l.length : ℚ) * m ^ 2 := by
  induction l with
  | nil => simp [sqSum]
  | cons a t ih =>
    simp only [List.map_cons, List.sum_cons, List.length_cons,
      List.sum_cons, sqSum, List.map] at ih ⊢
    push_cast
    rw [ih]
    ring

/-- C1: for every sequence of N ≥ 1 samples fed into the accumulator via the
stop update, after the N-th update the `mean` field equals the arithmetic
mean of the samples and the `variance` field equals the population variance
Σ(x − mean)² / N, computed exactly over exact arithmetic, as produced by the
Welford update steps embedded in `stopData`. -/
theorem micro_bench_welford_exact (l : List ℚ) (h : l ≠ []) :
    (runStats l).mean = l.sum / (l.length : ℚ) ∧
    (runStats l).variance =
      (l.map fun x => (x - l.sum / (l.length : ℚ)) ^ 2).sum / (l.length : ℚ) := by
  have hn : l.length ≠ 0 := fun h0 => h (List.length_eq_zero.mp h0)
  have hq : (l.length : ℚ) ≠ 0 := Nat.cast_ne_zero.mpr hn
  obtain ⟨h1, h2, h3, h4, h5⟩ := runStats_invariant l
  refine ⟨by rw [h3, if_neg hn], ?_⟩
  rw [h5, if_neg hn, map_sub_sq_sum]
  field_simp
  ring

/-- Witness for C1 at the concrete sample list [1, 2]. -/
theorem micro_bench_welford_exact_witness :
    (([1, 2] : List ℚ) ≠ []) ∧
    ((runStats [1, 2]).mean =
        ([1, 2] : List ℚ).sum / ((([1, 2] : List ℚ).length : ℕ) : ℚ) ∧
      (runStats [1, 2]).variance =
        (([1, 2] : List ℚ).map fun x =>
            (x - ([1, 2] : List ℚ).sum / ((([1, 2] : List ℚ).length : ℕ) : ℚ)) ^ 2).sum /
          ((([1, 2] : List ℚ).length : ℕ) : ℚ)) :=
  ⟨by decide, micro_bench_welford_exact [1, 2] (by decide)⟩

/-- C2 (refuted on the code): after the samples [0, 5] the sentinel-zero min
update (`if (diff < min || min == 0.0)`) overwrites the legitimate minimum 0
with 5, so the `min` field is 5 and the invariant `min ≤ every observed
sample` fails for the observed sample 0. -/
theorem micro_bench_min_sentinel_bug :
    (runStats [0, 5]).min = 5 ∧ ¬ (runStats [0, 5]).min ≤ (0 : ℚ) := by
  decide

/-- C3 (refuted on the code): the `get_sum` accessors return the running
maximum, not the running total.  After the samples [1, 2] (single-clock) and
the cpu/real sample pairs (1,1), (2,2) (dual-clock), every `get_sum` accessor
returns 2 while the accumulator's `sum` field holds 3. -/
theorem micro_bench_get_sum_is_max :
    micro_bench_get_sum (some ⟨runStats [1, 2], 0⟩) = some 2 ∧
    (runStats [1, 2]).sum = 3 ∧
    micro_bench_get_sum_real
      (some ⟨stopData2 (stopData2 dataZero2 1 1) 2 2, 0, (0, 0)⟩) = some 2 ∧
    (stopData2 (stopData2 dataZero2 1 1) 2 2).sum_real = 3 ∧
    micro_bench_get_sum_cpu
      (some ⟨stopData2 (stopData2 dataZero2 1 1) 2 2, 0, (0, 0)⟩) = some 2 ∧
    (stopData2 (stopData2 dataZero2 1 1) 2 2).sum_cpu = 3 := by
  norm_num [micro_bench_get_sum, micro_bench_get_sum_real,
    micro_bench_get_sum_cpu, runStats, stopData, stopData2, dataZero,
    dataZero2]

/-- C4 (refuted on the code): on an accumulator holding the single sample 5,
the single-clock CSV reporter emits exactly one line (a 6-value data row, no
header at all), and the dual-clock CSV reporter emits a header naming 9
fields followed by a data row carrying 11 values, so the header field count
never matches the data value count in either variant. -/
theorem micro_bench_csv_header_mismatch :
    micro_bench_default_reporter_csv (stopData dataZero 5) =
      [[CsvField.val 5, CsvField.val 5, CsvField.val 5, CsvField.val 5,
        CsvField.val 0, CsvField.count 1]] ∧
    (micro_bench_default_reporter_csv (stopData dataZero 5)).map List.length
      = [6] ∧
    (micro_bench_default_reporter_csv2
        (stopData2 dataZero2 5 5)).map List.length = [9, 11] := by
  norm_num [micro_bench_default_reporter_csv, micro_bench_default_reporter_csv2,
    stopData, stopData2, dataZero, dataZero2]

/-- C5 counterexample: calling stop on a freshly cleared benchmark, with no
preceding start, does not leave the accumulator unchanged — with stop clock
reading 1 the iteration count changes from 0 to 1 (a sample is committed). -/
theorem micro_bench_stop_no_start_commits :
    microBenchZero.data.iterations = 0 ∧
    (stopB microBenchZero 1).data.iterations = 1 := by
  decide

/-- C5 amended: calling stop without a preceding matching start signals no
error at all; stop unconditionally commits one sample, measured from whatever
value the start-time slot currently holds (zero after clear), incrementing
the iteration count and adding `(stop reading − start slot)/CLOCKS_PER_SEC`
to the sum. -/
theorem micro_bench_stop_always_commits (b : MicroBench) (t : ℚ) :
    (stopB b t).data.iterations = b.data.iterations + 1 ∧
    (stopB b t).data.sum = b.data.sum + (t - b.start_time) / CLOCKS_PER_SEC ∧
    micro_bench_stop (some b) t = some (some (stopB b t)) :=
  ⟨rfl, rfl, rfl⟩

/-- C6 counterexample: `micro_bench_get_min` (and `report` through
`report_with`) dereference a null benchmark pointer — the embedded result
`none` marks the crash — instead of returning as a no-op. -/
theorem micro_bench_get_min_null_crash :
    micro_bench_get_min none = none ∧ micro_bench_report none = none :=
  ⟨rfl, rfl⟩

/-- C6 amended: only start, stop and clear guard against a null benchmark
reference and return immediately as no-ops; all five getters, `report` and
`report_with` perform no null check and dereference the null pointer. -/
theorem micro_bench_null_guard_coverage :
    micro_bench_start none 0 = some none ∧
    micro_bench_stop none 0 = some none ∧
    micro_bench_clear none = some none ∧
    micro_bench_get_min none = none ∧
    micro_bench_get_max none = none ∧
    micro_bench_get_mean none = none ∧
    micro_bench_get_sum none = none ∧
    micro_bench_get_variance none = none ∧
    micro_bench_report none = none ∧
    micro_bench_report_with none micro_bench_default_reporter_csv = none :=
  ⟨rfl, rfl, rfl, rfl, rfl, rfl, rfl, rfl, rfl, rfl⟩

/-- C7: a freshly cleared benchmark reports `iterations == 0`, every getter
(min, max, mean, sum, variance) returns the identity value 0, and the
getters are pure reads (total functions on the state) that are safe to call
in the empty state. -/
theorem micro_bench_cleared_snapshot_zero (b : MicroBench) :
    (clearB b).data.iterations = 0 ∧
    micro_bench_get_min (some (clearB b)) = some 0 ∧
    micro_bench_get_max (some (clearB b)) = some 0 ∧
    micro_bench_get_mean (some (clearB b)) = some 0 ∧
    micro_bench_get_sum (some (clearB b)) = some 0 ∧
    micro_bench_get_variance (some (clearB b)) = some 0 :=
  ⟨rfl, rfl, rfl, rfl, rfl, rfl⟩

/-- C8: clear is idempotent — clearing twice leaves the state produced by
clearing once — and the cleared state is exactly the zero-initialised
creation state (all accumulators zero, no pending start). -/
theorem micro_bench_clear_idempotent (b : MicroBench) :
    clearB (clearB b) = clearB b ∧ clearB b = microBenchZero :=
  ⟨rfl, rfl⟩

/-- C9: start modifies only the pending start-timestamp slots; in both
variants every accumulated-statistics field is unchanged by start. -/
theorem micro_bench_start_preserves_data (b : MicroBench) (now : ℚ)
    (b2 : MicroBench2) (now_cpu : ℚ) (now_real : Int × Int) :
    (startB b now).data = b.data ∧
    (startB2 b2 now_cpu now_real).data = b2.data :=
  ⟨rfl, rfl⟩

/-- C10: stop never modifies the pending start-timestamp slots (in either
variant), so two consecutive stop calls after a single start at reading `s`
both commit samples, each measured from that same reading: the iteration
count rises by 2 and the sum gains `(t1 − s)/CLOCKS_PER_SEC` and
`(t2 − s)/CLOCKS_PER_SEC`. -/
theorem micro_bench_stop_preserves_start_time (b : MicroBench)
    (s t t1 t2 : ℚ) (b2 : MicroBench2) (tc : ℚ) (tr : Int × Int) :
    (stopB b t).start_time = b.start_time ∧
    (stopB2 b2 tc tr).start_time_cpu = b2.start_time_cpu ∧
    (stopB2 b2 tc tr).start_time_real = b2.start_time_real ∧
    (stopB (stopB (startB b s) t1) t2).data.iterations
      = b.data.iterations + 2 ∧
    (stopB (stopB (startB b s) t1) t2).data.sum
      = b.data.sum + (t1 - s) / CLOCKS_PER_SEC + (t2 - s) / CLOCKS_PER_SEC :=
  ⟨rfl, rfl, rfl, rfl, rfl⟩
